import Mathlib

/-!
Verification of the ArthaFlow SIP planner.

The repository ships a Streamlit presentation layer (`app.py`) that calls a
simulation engine `simulate_portfolio` from `finance/portfolio.py`.  The
engine module itself is not among the available sources, so the engine is
modelled here from the specification (§4.1 of the design document); the
presentation-layer guard and the risk-profile presets are translated
directly from `app.py`.

All monetary amounts are modelled as real numbers (the source uses Python
floats; the spec fixes the exact real-arithmetic recurrences and treats
rounding as a display concern only).
-/

namespace ArthaFlow

/-- One allocation line, as built by `app.py` (`funds.append({"name": cat,
"allocation_pct": alloc, "return_pct": current_ret})`): a category name, its
allocation percentage and its assumed annual return percentage. -/
structure AllocationLine where
  name : String
  allocation_pct : ℝ
  return_pct : ℝ

/-- Modelled from the spec: `finance/portfolio.py` is not among the sources.
§4.1 step 1: convert the annual return percentage to an effective monthly
growth rate, `monthly_rate = (1 + annual_return_pct/100)^(1/12) - 1`
(geometric monthly compounding, not `annual_rate/12`). -/
noncomputable def monthly_rate (annual_return_pct : ℝ) : ℝ :=
  (1 + annual_return_pct / 100) ^ ((1 : ℝ) / 12) - 1

/-- Modelled from the spec: `finance/portfolio.py` is not among the sources.
§4.1 step 2: the contribution a category receives in (1-indexed) month `m`
is `monthly_base × allocation_pct/100 × (1 + step_up_pct/100)^y`, where
`y = (m-1)/12` is the 0-indexed elapsed year (the step-up applies once per
completed year, uniformly to all 12 months of that year). -/
noncomputable def catContribution (monthly_base step_up_pct allocation_pct : ℝ)
    (m : ℕ) : ℝ :=
  monthly_base * allocation_pct / 100 * (1 + step_up_pct / 100) ^ ((m - 1) / 12)

/-- Modelled from the spec: `finance/portfolio.py` is not among the sources.
§4.1 step 3: the running balance of one category after `m` months; each
month first applies one month of growth to the existing balance
(`balance *= (1 + monthly_rate)`) and then adds that month's contribution
(grow-then-contribute, contribution-at-end-of-month). -/
noncomputable def catBalance (monthly_base step_up_pct allocation_pct r : ℝ) :
    ℕ → ℝ
  | 0 => 0
  | m + 1 =>
      catBalance monthly_base step_up_pct allocation_pct r m * (1 + r) +
        catContribution monthly_base step_up_pct allocation_pct (m + 1)

/-- Modelled from the spec: `finance/portfolio.py` is not among the sources.
§4.1 step 4: the total portfolio value for month `m` is the sum of all
categories' balances after that month's update. -/
noncomputable def monthlyTotal (monthly_base step_up_pct : ℝ)
    (lines : List AllocationLine) (m : ℕ) : ℝ :=
  (lines.map (fun l =>
    catBalance monthly_base step_up_pct l.allocation_pct
      (monthly_rate l.return_pct) m)).sum

/-- Modelled from the spec: `finance/portfolio.py` is not among the sources.
§4.1 step 5: `total_invested` accumulates, for every category and every
month `1 .. months`, the contribution actually made (already reflecting the
step-up). -/
noncomputable def totalInvested (monthly_base step_up_pct : ℝ)
    (lines : List AllocationLine) (months : ℕ) : ℝ :=
  (lines.map (fun l =>
    ((List.range months).map (fun i =>
      catContribution monthly_base step_up_pct l.allocation_pct (i + 1))).sum)).sum

/-- The result record of one simulation run: the month-indexed totals
(`history` in `app.py`), the per-category final values (`fund_details`), and
the total amount invested. -/
structure SimulationOutput where
  monthly_totals : List ℝ
  category_results : List (String × ℝ)
  total_invested : ℝ

/-- Modelled from the spec: `finance/portfolio.py` is not among the sources.
The fully populated output of a valid run: `tenure_years × 12` monthly
totals (month indices `1 .. tenure_years × 12`), one final value per
allocation line in input order (§4.1 step 6), and the total invested. -/
noncomputable def simOutput (monthly_base : ℝ) (tenure_years : ℕ)
    (step_up_pct : ℝ) (lines : List AllocationLine) : SimulationOutput :=
  { monthly_totals :=
      (List.range (tenure_years * 12)).map (fun i =>
        monthlyTotal monthly_base step_up_pct lines (i + 1)),
    category_results :=
      lines.map (fun l =>
        (l.name,
          catBalance monthly_base step_up_pct l.allocation_pct
            (monthly_rate l.return_pct) (tenure_years * 12))),
    total_invested :=
      totalInvested monthly_base step_up_pct lines (tenure_years * 12) }

/-- Modelled from the spec: §7 error taxonomy of the engine. -/
inductive SimError where
  | InvalidTenure
  | InvalidReturnDomain
deriving DecidableEq

open Classical in
/-- Modelled from the spec: `finance/portfolio.py` is not among the sources.
§4.1 / §7: the engine fails with `InvalidTenure` when `tenure_years < 1`,
with `InvalidReturnDomain` when some annual return percentage is `≤ -100`
(outside the domain of the monthly-rate formula), and otherwise returns the
fully populated output. -/
noncomputable def simulate_portfolio (monthly_base : ℝ) (tenure_years : ℕ)
    (step_up_pct : ℝ) (lines : List AllocationLine) :
    Except SimError SimulationOutput :=
  if tenure_years < 1 then .error .InvalidTenure
  else if ∃ l ∈ lines, l.return_pct ≤ -100 then .error .InvalidReturnDomain
  else .ok (simOutput monthly_base tenure_years step_up_pct lines)

/-! ### Presentation layer (`app.py`) -/

/-- One entry of the `funds` list built in `app.py`: the allocation
percentage is an integer widget value, the return percentage a real. -/
structure Fund where
  name : String
  allocation_pct : ℕ
  return_pct : ℝ

/-- From `app.py` line 106: `total_alloc` accumulates the integer allocation
percentages of all funds. -/
def total_alloc (funds : List Fund) : ℕ :=
  (funds.map Fund.allocation_pct).sum

/-- A fund as passed to the engine (allocation percentage coerced to a
real amount). -/
noncomputable def Fund.toLine (f : Fund) : AllocationLine :=
  ⟨f.name, (f.allocation_pct : ℝ), f.return_pct⟩

/-- From `app.py` lines 124-125: the projection tab runs the simulation only when
the allocations sum to exactly 100 and the base SIP is strictly positive;
otherwise it shows an informational message and computes nothing. -/
noncomputable def tab2Run (base_sip tenure step_up : ℕ) (funds : List Fund) :
    Option SimulationOutput :=
  if total_alloc funds = 100 ∧ 0 < base_sip then
    (simulate_portfolio (base_sip : ℝ) tenure (step_up : ℝ)
      (funds.map Fund.toLine)).toOption
  else none

/-- From `app.py` line 129: `profit_pct = (wealth_gain / total_invested) * 100`
where `wealth_gain = final_corpus - total_invested` and `final_corpus` is
the last monthly total. -/
noncomputable def profit_pct (out : SimulationOutput) : ℝ :=
  (out.monthly_totals.getLastD 0 - out.total_invested) / out.total_invested * 100

/-- From `app.py` line 130: `multiplier = final_corpus / total_invested`. -/
noncomputable def multiplier (out : SimulationOutput) : ℝ :=
  out.monthly_totals.getLastD 0 / out.total_invested

/-- The per-category session state of `app.py` (six integer allocation
percentages plus the selected profile name). -/
structure ProfileState where
  debtMF : ℕ
  goldETF : ℕ
  nifty50 : ℕ
  flexiCap : ℕ
  midCap : ℕ
  smallCap : ℕ
  selected_profile : String

/-- From `app.py` lines 19-24: the default session state (Balanced profile). -/
def initialState : ProfileState :=
  ⟨30, 10, 30, 20, 5, 5, "Balanced"⟩

/-- From `app.py` lines 43-48: `select_profile` replaces the six category
allocations and the selected profile name. -/
def select_profile (name : String) (d g n f m s : ℕ) : ProfileState :=
  ⟨d, g, n, f, m, s, name⟩

/-- From `app.py` line 75: the Conservative preset. -/
def conservativeState : ProfileState := select_profile ("Conservative") 60 10 20 10 0 0

/-- From `app.py` line 78: the Balanced preset. -/
def balancedState : ProfileState := select_profile ("Balanced") 30 10 30 20 5 5

/-- From `app.py` line 81: the Aggressive preset. -/
def aggressiveState : ProfileState := select_profile ("Aggressive") 10 5 25 20 20 20

/-- From `app.py` lines 89-106: the funds list built from the session state, one
entry per category in the fixed order, with the allocation taken from the
state and the return from the return source. -/
def stateFunds (p : ProfileState) (ret : String → ℝ) : List Fund :=
  [⟨"Debt MF", p.debtMF, ret ("Debt MF")⟩,
   ⟨"Gold ETF", p.goldETF, ret ("Gold ETF")⟩,
   ⟨"Nifty 50", p.nifty50, ret ("Nifty 50")⟩,
   ⟨"Flexi Cap", p.flexiCap, ret ("Flexi Cap")⟩,
   ⟨"Mid Cap", p.midCap, ret ("Mid Cap")⟩,
   ⟨"Small Cap", p.smallCap, ret ("Small Cap")⟩]

/-! ### Basic lemmas -/

lemma catBalance_succ (b s a r : ℝ) (m : ℕ) :
    catBalance b s a r (m + 1) =
      catBalance b s a r m * (1 + r) + catContribution b s a (m + 1) := rfl

lemma catContribution_zero_base (s a : ℝ) (m : ℕ) :
    catContribution 0 s a m = 0 := by
  simp [catContribution]

lemma catContribution_zero_alloc (b s : ℝ) (m : ℕ) :
    catContribution b s 0 m = 0 := by
  simp [catContribution]

lemma catBalance_zero_base (s a r : ℝ) (m : ℕ) : catBalance 0 s a r m = 0 := by
  induction m with
  | zero => rfl
  | succ n ih => rw [catBalance_succ, ih, catContribution_zero_base]; ring

lemma catBalance_zero_alloc (b s r : ℝ) (m : ℕ) : catBalance b s 0 r m = 0 := by
  induction m with
  | zero => rfl
  | succ n ih => rw [catBalance_succ, ih, catContribution_zero_alloc]; ring

lemma simOutput_totals_getD (b s : ℝ) (T : ℕ) (L : List AllocationLine) (i : ℕ) :
    (simOutput b T s L).monthly_totals.getD i 0 =
      if i < T * 12 then monthlyTotal b s L (i + 1) else 0 := by
  by_cases h : i < T * 12
  · simp [simOutput, List.getElem?_range h, h]
  · have hn : (List.range (T * 12))[i]? = none :=
      List.getElem?_eq_none (by simpa using not_lt.mp h)
    simp [simOutput, hn, h]

lemma catContribution_scale (b s a : ℝ) (m : ℕ) :
    catContribution (b * a / 100) s 100 m = catContribution b s a m := by
  unfold catContribution
  ring

lemma catBalance_scale (b s a r : ℝ) (m : ℕ) :
    catBalance (b * a / 100) s 100 r m = catBalance b s a r m := by
  induction m with
  | zero => rfl
  | succ n ih => rw [catBalance_succ, catBalance_succ, ih, catContribution_scale]

lemma monthly_rate_nonneg (p : ℝ) (hp : 0 ≤ p) : 0 ≤ monthly_rate p := by
  unfold monthly_rate
  have h1 : (1 : ℝ) ≤ 1 + p / 100 := by linarith
  have h2 : (1 : ℝ) ≤ (1 + p / 100) ^ ((1 : ℝ) / 12) := by
    calc (1 : ℝ) = (1 : ℝ) ^ ((1 : ℝ) / 12) := (Real.one_rpow _).symm
    _ ≤ (1 + p / 100) ^ ((1 : ℝ) / 12) :=
        Real.rpow_le_rpow (by norm_num) h1 (by norm_num)
  linarith

lemma catContribution_nonneg (b s a : ℝ) (m : ℕ)
    (hb : 0 ≤ b) (hs : 0 ≤ s) (ha : 0 ≤ a) : 0 ≤ catContribution b s a m := by
  unfold catContribution
  have h1 : (0 : ℝ) ≤ 1 + s / 100 := by linarith
  exact mul_nonneg (div_nonneg (mul_nonneg hb ha) (by norm_num)) (pow_nonneg h1 _)

lemma catBalance_nonneg (b s a r : ℝ) (m : ℕ)
    (hb : 0 ≤ b) (hs : 0 ≤ s) (ha : 0 ≤ a) (hr : 0 ≤ r) :
    0 ≤ catBalance b s a r m := by
  induction m with
  | zero => exact le_refl 0
  | succ n ih =>
      rw [catBalance_succ]
      have hc := catContribution_nonneg b s a (n + 1) hb hs ha
      have hg : (0 : ℝ) ≤ 1 + r := by linarith
      nlinarith

lemma catBalance_le_succ (b s a r : ℝ) (m : ℕ)
    (hb : 0 ≤ b) (hs : 0 ≤ s) (ha : 0 ≤ a) (hr : 0 ≤ r) :
    catBalance b s a r m ≤ catBalance b s a r (m + 1) := by
  rw [catBalance_succ]
  have h0 := catBalance_nonneg b s a r m hb hs ha hr
  have hc := catContribution_nonneg b s a (m + 1) hb hs ha
  nlinarith

lemma monthly_rate_zero : monthly_rate 0 = 0 := by
  unfold monthly_rate
  norm_num [Real.one_rpow]

lemma simOutput_totals_getLastD (b s : ℝ) (T : ℕ) (L : List AllocationLine)
    (hT : 0 < T) :
    (simOutput b T s L).monthly_totals.getLastD 0 = monthlyTotal b s L (T * 12) := by
  rw [List.getLastD_eq_getLast?, List.getLast?_eq_getElem?]
  simp only [simOutput, List.length_map, List.length_range]
  rw [List.getElem?_map, List.getElem?_range (by omega)]
  simp only [Option.map_some', Option.getD_some]
  congr 1
  omega

lemma sim_ok_of_valid (b : ℝ) (T : ℕ) (s : ℝ) (L : List AllocationLine)
    (hT : 1 ≤ T) (hall : ∀ l ∈ L, -100 < l.return_pct) :
    simulate_portfolio b T s L = .ok (simOutput b T s L) := by
  have h2 : ¬ ∃ l ∈ L, l.return_pct ≤ -100 := by
    push_neg
    exact hall
  unfold simulate_portfolio
  rw [if_neg (by omega), if_neg h2]

/-! ### Claim theorems -/

/-- C1: in every month the per-category balance update first multiplies the
existing balance by `(1 + monthly_rate)` and then adds that month's
contribution (grow-then-contribute); hence the balance after month 1 is
exactly the first month's contribution, and the final month's contribution,
being the last term added, earns zero growth. -/
theorem C1_grow_then_contribute (b s a r : ℝ) (m : ℕ) :
    catBalance b s a r (m + 1) =
      catBalance b s a r m * (1 + r) + catContribution b s a (m + 1) ∧
    catBalance b s a r 1 = catContribution b s a 1 := by
  refine ⟨rfl, ?_⟩
  rw [catBalance_succ]
  show (0 : ℝ) * (1 + r) + _ = _
  ring

/-- C7: with a zero monthly base, every monthly total is 0 and
`total_invested` is 0; likewise a category with zero allocation has a zero
balance in every month (an all-zero trajectory, with no division error
since the only divisions are by the literal constant 100). -/
theorem C7_zero_degenerate (T : ℕ) (s : ℝ) (L : List AllocationLine) (i : ℕ)
    (b st r : ℝ) (m : ℕ) :
    (simOutput 0 T s L).monthly_totals.getD i 0 = 0 ∧
    (simOutput 0 T s L).total_invested = 0 ∧
    catBalance b st 0 r m = 0 := by
  refine ⟨?_, ?_, catBalance_zero_alloc b st r m⟩
  · rw [simOutput_totals_getD]
    have hz : monthlyTotal 0 s L (i + 1) = 0 := by
      unfold monthlyTotal
      refine List.sum_eq_zero fun x hx => ?_
      obtain ⟨l, -, rfl⟩ := List.mem_map.mp hx
      exact catBalance_zero_base _ _ _ _
    by_cases h : i < T * 12 <;> simp [h, hz]
  · show totalInvested 0 s L (T * 12) = 0
    unfold totalInvested
    refine List.sum_eq_zero fun x hx => ?_
    obtain ⟨l, -, rfl⟩ := List.mem_map.mp hx
    refine List.sum_eq_zero fun y hy => ?_
    obtain ⟨j, -, rfl⟩ := List.mem_map.mp hy
    exact catContribution_zero_base _ _ _

/-- C10: the default session state and each of the three preset risk
profiles (Conservative, Balanced, Aggressive) assign six category
allocations summing to exactly 100, so selecting any preset re-establishes
the 100% allocation invariant that gates the simulation. -/
theorem C10_presets_sum_100 (ret : String → ℝ) :
    total_alloc (stateFunds initialState ret) = 100 ∧
    total_alloc (stateFunds conservativeState ret) = 100 ∧
    total_alloc (stateFunds balancedState ret) = 100 ∧
    total_alloc (stateFunds aggressiveState ret) = 100 :=
  ⟨rfl, rfl, rfl, rfl⟩

/-- C3: for every valid input (`tenure_years ≥ 1`, non-empty allocation
lines, every annual return above -100), the engine returns a fully
populated output whose monthly-totals sequence has length exactly
`tenure_years × 12` and whose category-results sequence has the same length
and order (same category names, in order) as the input allocation lines. -/
theorem C3_output_shape (b : ℝ) (T : ℕ) (s : ℝ) (L : List AllocationLine)
    (hT : 1 ≤ T) (hne : L ≠ []) (hret : ∀ l ∈ L, -100 < l.return_pct) :
    ∃ out, simulate_portfolio b T s L = .ok out ∧
      out.monthly_totals.length = T * 12 ∧
      out.category_results.length = L.length ∧
      out.category_results.map Prod.fst = L.map AllocationLine.name := by
  have h2 : ¬ ∃ l ∈ L, l.return_pct ≤ -100 := by
    push_neg
    exact hret
  refine ⟨simOutput b T s L, ?_, ?_, ?_, ?_⟩
  · unfold simulate_portfolio
    rw [if_neg (by omega), if_neg h2]
  · simp [simOutput]
  · simp [simOutput]
  · simp [simOutput]

/-- Witness for C3 at a concrete valid input. -/
theorem C3_output_shape_witness :
    ∃ out, simulate_portfolio 20000 15 10 [⟨"Nifty 50", 100, 12⟩] = .ok out ∧
      out.monthly_totals.length = 15 * 12 ∧
      out.category_results.length = ([⟨"Nifty 50", 100, 12⟩] : List AllocationLine).length ∧
      out.category_results.map Prod.fst =
        ([⟨"Nifty 50", 100, 12⟩] : List AllocationLine).map AllocationLine.name :=
  C3_output_shape 20000 15 10 [⟨"Nifty 50", 100, 12⟩] (by norm_num) (by simp)
    (by intro l hl; simp at hl; subst hl; norm_num)

/-- C8: the engine fails exactly on invalid input: `InvalidTenure` when
`tenure_years < 1`; `InvalidReturnDomain` when some annual return is
`≤ -100` (which would make the monthly-rate conversion undefined, e.g.
`annual_return_pct = -100`); for all other inputs it returns the fully
populated output with no other failure mode. -/
theorem C8_error_conditions (b : ℝ) (T : ℕ) (s : ℝ) (L : List AllocationLine) :
    (T < 1 → simulate_portfolio b T s L = .error .InvalidTenure) ∧
    (1 ≤ T → (∃ l ∈ L, l.return_pct ≤ -100) →
      simulate_portfolio b T s L = .error .InvalidReturnDomain) ∧
    (1 ≤ T → (∀ l ∈ L, -100 < l.return_pct) →
      simulate_portfolio b T s L = .ok (simOutput b T s L)) := by
  refine ⟨?_, ?_, ?_⟩
  · intro h
    unfold simulate_portfolio
    rw [if_pos h]
  · intro hT hex
    unfold simulate_portfolio
    rw [if_neg (by omega), if_pos hex]
  · intro hT hall
    have h2 : ¬ ∃ l ∈ L, l.return_pct ≤ -100 := by
      push_neg
      exact hall
    unfold simulate_portfolio
    rw [if_neg (by omega), if_neg h2]

/-- Witness for C8: an invalid tenure, a -100% return, and a valid run. -/
theorem C8_error_conditions_witness :
    simulate_portfolio 10000 0 0 [⟨"Debt MF", 100, 12⟩] = .error .InvalidTenure ∧
    simulate_portfolio 10000 1 0 [⟨"Debt MF", 100, -100⟩] = .error .InvalidReturnDomain ∧
    simulate_portfolio 10000 1 0 [⟨"Debt MF", 100, 12⟩] =
      .ok (simOutput 10000 1 0 [⟨"Debt MF", 100, 12⟩]) :=
  ⟨(C8_error_conditions 10000 0 0 [⟨"Debt MF", 100, 12⟩]).1 (by norm_num),
   (C8_error_conditions 10000 1 0 [⟨"Debt MF", 100, -100⟩]).2.1 (by norm_num)
     ⟨⟨"Debt MF", 100, -100⟩, by simp, by norm_num⟩,
   (C8_error_conditions 10000 1 0 [⟨"Debt MF", 100, 12⟩]).2.2 (by norm_num)
     (by intro l hl; simp at hl; subst hl; norm_num)⟩

/-- C5: for every month index and every list of allocation lines, the
monthly total of the joint simulation equals the sum, over the categories,
of the monthly total of each category simulated alone at 100% allocation
with monthly base `monthly_base × allocation_pct / 100`. -/
theorem C5_additivity (b s : ℝ) (T : ℕ) (L : List AllocationLine) (i : ℕ) :
    (simOutput b T s L).monthly_totals.getD i 0 =
      (L.map (fun l =>
        (simOutput (b * l.allocation_pct / 100) T s
          [⟨l.name, 100, l.return_pct⟩]).monthly_totals.getD i 0)).sum := by
  rw [simOutput_totals_getD]
  by_cases h : i < T * 12
  · rw [if_pos h]
    have hsingle : ∀ l ∈ L,
        (simOutput (b * l.allocation_pct / 100) T s
          [⟨l.name, 100, l.return_pct⟩]).monthly_totals.getD i 0 =
          catBalance b s l.allocation_pct (monthly_rate l.return_pct) (i + 1) := by
      intro l hl
      rw [simOutput_totals_getD, if_pos h]
      show (List.map _ [_]).sum = _
      simp only [List.map_cons, List.map_nil, List.sum_cons, List.sum_nil, add_zero]
      exact catBalance_scale b s l.allocation_pct (monthly_rate l.return_pct) (i + 1)
    rw [List.map_congr_left hsingle]
    rfl
  · rw [if_neg h]
    symm
    refine List.sum_eq_zero fun x hx => ?_
    obtain ⟨l, -, rfl⟩ := List.mem_map.mp hx
    rw [simOutput_totals_getD, if_neg h]

/-- C6: if every annual return, the monthly base and the step-up are
nonnegative, the monthly-totals sequence is non-decreasing month over
month. -/
theorem C6_monotone (b s : ℝ) (T : ℕ) (L : List AllocationLine)
    (hb : 0 ≤ b) (hs : 0 ≤ s) (hr : ∀ l ∈ L, 0 ≤ l.return_pct)
    (hall : ∀ l ∈ L, 0 ≤ l.allocation_pct) (i : ℕ)
    (h : i + 1 < T * 12) :
    (simOutput b T s L).monthly_totals.getD i 0 ≤
      (simOutput b T s L).monthly_totals.getD (i + 1) 0 := by
  rw [simOutput_totals_getD, simOutput_totals_getD, if_pos (by omega), if_pos h]
  unfold monthlyTotal
  refine List.sum_le_sum fun l hl => ?_
  exact catBalance_le_succ b s l.allocation_pct (monthly_rate l.return_pct)
    (i + 1) hb hs (hall l hl) (monthly_rate_nonneg l.return_pct (hr l hl))

/-- Witness for C6 at a concrete input. -/
theorem C6_monotone_witness :
    (simOutput 1000 1 0 [⟨"Debt MF", 100, 0⟩]).monthly_totals.getD 0 0 ≤
      (simOutput 1000 1 0 [⟨"Debt MF", 100, 0⟩]).monthly_totals.getD 1 0 :=
  C6_monotone 1000 0 1 [⟨"Debt MF", 100, 0⟩] (by norm_num) (by norm_num)
    (by intro l hl; simp at hl; subst hl; norm_num)
    (by intro l hl; simp at hl; subst hl; norm_num) 0 (by norm_num)

/-- C4: during 0-indexed year `y` (months `12y+1 .. 12y+12`) a category's
contribution equals its base monthly share times `(1 + step_up_pct/100)^y`,
uniformly over the 12 months of that year; and in the literal step-up
scenario (base 10000, 2 years, 10% step-up, one category at 100% with 0%
return) `total_invested` and the final value both equal 252000, i.e.
`total_invested` is the sum of the contributions actually made, reflecting
the step-up. -/
theorem C4_step_up (b s a : ℝ) (y k : ℕ) (hk : k < 12) :
    catContribution b s a (12 * y + k + 1) = b * a / 100 * (1 + s / 100) ^ y ∧
    ∃ out, simulate_portfolio 10000 2 10 [⟨"Debt MF", 100, 0⟩] = .ok out ∧
      out.total_invested = 252000 ∧ out.monthly_totals.getLastD 0 = 252000 := by
  refine ⟨?_, simOutput 10000 2 10 [⟨"Debt MF", 100, 0⟩], ?_, ?_, ?_⟩
  · unfold catContribution
    have he : (12 * y + k + 1 - 1) / 12 = y := by omega
    rw [he]
  · exact sim_ok_of_valid 10000 2 10 [⟨"Debt MF", 100, 0⟩] (by norm_num)
      (by intro l hl; simp at hl; subst hl; norm_num)
  · show totalInvested 10000 10 [⟨"Debt MF", 100, 0⟩] (2 * 12) = 252000
    unfold totalInvested
    simp only [List.map_cons, List.map_nil, List.sum_cons, List.sum_nil, add_zero]
    norm_num [List.range_succ, catContribution]
  · rw [simOutput_totals_getLastD 10000 10 2 [⟨"Debt MF", 100, 0⟩] (by norm_num)]
    unfold monthlyTotal
    simp only [List.map_cons, List.map_nil, List.sum_cons, List.sum_nil, add_zero]
    rw [monthly_rate_zero]
    norm_num [catBalance, catContribution]

/-- Witness for C4 at concrete year and month-of-year indices. -/
theorem C4_step_up_witness :
    catContribution 2 3 4 (12 * 1 + 0 + 1) = 2 * 4 / 100 * (1 + 3 / 100) ^ 1 ∧
    ∃ out, simulate_portfolio 10000 2 10 [⟨"Debt MF", 100, 0⟩] = .ok out ∧
      out.total_invested = 252000 ∧ out.monthly_totals.getLastD 0 = 252000 :=
  C4_step_up 2 3 4 1 0 (by norm_num)

/-- C2: the monthly growth rate is the geometric conversion of the annual
rate — `(1 + monthly_rate)^12` recovers `1 + annual_return_pct/100`, and
`monthly_rate` is `(1 + annual_return_pct/100)^(1/12) - 1`, not
`annual_return_pct/100/12` (shown at 12%: the two differ); consequently, in
the literal scenario (base 10000, 1 year, no step-up, one category at 100%
and 12% annual return) `total_invested` is exactly 120000 and the final
value is within 1% of 127058. -/
theorem C2_geometric_rate (p : ℝ) (hp : -100 < p) :
    (1 + monthly_rate p) ^ (12 : ℕ) = 1 + p / 100 ∧
    monthly_rate p = (1 + p / 100) ^ ((1 : ℝ) / 12) - 1 ∧
    monthly_rate 12 ≠ 12 / 100 / 12 ∧
    ∃ out, simulate_portfolio 10000 1 0 [⟨"Nifty 50", 100, 12⟩] = .ok out ∧
      out.total_invested = 120000 ∧
      |out.monthly_totals.getLastD 0 - 127058| ≤ 127058 / 100 := by
  have hpos : (0 : ℝ) < 1 + p / 100 := by linarith
  have hx12 : ∀ q : ℝ, (0 : ℝ) < 1 + q / 100 →
      ((1 + q / 100) ^ ((1 : ℝ) / 12)) ^ (12 : ℕ) = 1 + q / 100 := by
    intro q hq
    rw [← Real.rpow_natCast ((1 + q / 100) ^ ((1 : ℝ) / 12)) 12,
      ← Real.rpow_mul hq.le]
    norm_num
  have hx0 : (0 : ℝ) < (1 + (12 : ℝ) / 100) ^ ((1 : ℝ) / 12) :=
    Real.rpow_pos_of_pos (by norm_num) _
  have h12 : ((1 + (12 : ℝ) / 100) ^ ((1 : ℝ) / 12)) ^ (12 : ℕ) = 1 + 12 / 100 :=
    hx12 12 (by norm_num)
  have hlo : (1.009 : ℝ) ≤ (1 + (12 : ℝ) / 100) ^ ((1 : ℝ) / 12) := by
    have h1 : (1.009 : ℝ) ^ (12 : ℕ) ≤
        ((1 + (12 : ℝ) / 100) ^ ((1 : ℝ) / 12)) ^ (12 : ℕ) := by
      rw [h12]
      norm_num
    exact le_of_pow_le_pow_left₀ (by norm_num) hx0.le h1
  have hhi : (1 + (12 : ℝ) / 100) ^ ((1 : ℝ) / 12) < 1.01 := by
    have h1 : ((1 + (12 : ℝ) / 100) ^ ((1 : ℝ) / 12)) ^ (12 : ℕ) <
        (1.01 : ℝ) ^ (12 : ℕ) := by
      rw [h12]
      norm_num
    by_contra hcon
    push_neg at hcon
    exact absurd (pow_le_pow_left₀ (by norm_num) hcon 12) (not_le.mpr h1)
  refine ⟨?_, rfl, ?_, simOutput 10000 1 0 [⟨"Nifty 50", 100, 12⟩], ?_, ?_, ?_⟩
  · have hmr : (1 + monthly_rate p) = (1 + p / 100) ^ ((1 : ℝ) / 12) := by
      unfold monthly_rate
      ring
    rw [hmr]
    exact hx12 p hpos
  · show (1 + (12 : ℝ) / 100) ^ ((1 : ℝ) / 12) - 1 ≠ 12 / 100 / 12
    intro hcon
    have h1 : (1 + (12 : ℝ) / 100) ^ ((1 : ℝ) / 12) = 1.01 := by linarith
    rw [h1] at hhi
    norm_num at hhi
  · exact sim_ok_of_valid 10000 1 0 [⟨"Nifty 50", 100, 12⟩] (by norm_num)
      (by intro l hl; simp at hl; subst hl; norm_num)
  · show totalInvested 10000 0 [⟨"Nifty 50", 100, 12⟩] (1 * 12) = 120000
    unfold totalInvested
    simp only [List.map_cons, List.map_nil, List.sum_cons, List.sum_nil, add_zero]
    norm_num [List.range_succ, catContribution]
  · rw [simOutput_totals_getLastD 10000 0 1 [⟨"Nifty 50", 100, 12⟩] (by norm_num)]
    unfold monthlyTotal
    simp only [List.map_cons, List.map_nil, List.sum_cons, List.sum_nil, add_zero]
    have hrw : monthly_rate (AllocationLine.return_pct ⟨"Nifty 50", 100, 12⟩) =
        (1 + (12 : ℝ) / 100) ^ ((1 : ℝ) / 12) - 1 := rfl
    rw [hrw]
    have hbal : ∀ x : ℝ, catBalance 10000 0 100 (x - 1) (1 * 12) =
        10000 * (x ^ 11 + x ^ 10 + x ^ 9 + x ^ 8 + x ^ 7 + x ^ 6 + x ^ 5 +
          x ^ 4 + x ^ 3 + x ^ 2 + x + 1) := by
      intro x
      norm_num [catBalance, catContribution]
      ring
    rw [hbal]
    have hsum_lo : (1.009 : ℝ) ^ 11 + (1.009 : ℝ) ^ 10 + (1.009 : ℝ) ^ 9 +
        (1.009 : ℝ) ^ 8 + (1.009 : ℝ) ^ 7 + (1.009 : ℝ) ^ 6 + (1.009 : ℝ) ^ 5 +
        (1.009 : ℝ) ^ 4 + (1.009 : ℝ) ^ 3 + (1.009 : ℝ) ^ 2 + (1.009 : ℝ) + 1 ≤
        ((1 + (12 : ℝ) / 100) ^ ((1 : ℝ) / 12)) ^ 11 +
        ((1 + (12 : ℝ) / 100) ^ ((1 : ℝ) / 12)) ^ 10 +
        ((1 + (12 : ℝ) / 100) ^ ((1 : ℝ) / 12)) ^ 9 +
        ((1 + (12 : ℝ) / 100) ^ ((1 : ℝ) / 12)) ^ 8 +
        ((1 + (12 : ℝ) / 100) ^ ((1 : ℝ) / 12)) ^ 7 +
        ((1 + (12 : ℝ) / 100) ^ ((1 : ℝ) / 12)) ^ 6 +
        ((1 + (12 : ℝ) / 100) ^ ((1 : ℝ) / 12)) ^ 5 +
        ((1 + (12 : ℝ) / 100) ^ ((1 : ℝ) / 12)) ^ 4 +
        ((1 + (12 : ℝ) / 100) ^ ((1 : ℝ) / 12)) ^ 3 +
        ((1 + (12 : ℝ) / 100) ^ ((1 : ℝ) / 12)) ^ 2 +
        (1 + (12 : ℝ) / 100) ^ ((1 : ℝ) / 12) + 1 := by
      gcongr
    have hsum_hi : ((1 + (12 : ℝ) / 100) ^ ((1 : ℝ) / 12)) ^ 11 +
        ((1 + (12 : ℝ) / 100) ^ ((1 : ℝ) / 12)) ^ 10 +
        ((1 + (12 : ℝ) / 100) ^ ((1 : ℝ) / 12)) ^ 9 +
        ((1 + (12 : ℝ) / 100) ^ ((1 : ℝ) / 12)) ^ 8 +
        ((1 + (12 : ℝ) / 100) ^ ((1 : ℝ) / 12)) ^ 7 +
        ((1 + (12 : ℝ) / 100) ^ ((1 : ℝ) / 12)) ^ 6 +
        ((1 + (12 : ℝ) / 100) ^ ((1 : ℝ) / 12)) ^ 5 +
        ((1 + (12 : ℝ) / 100) ^ ((1 : ℝ) / 12)) ^ 4 +
        ((1 + (12 : ℝ) / 100) ^ ((1 : ℝ) / 12)) ^ 3 +
        ((1 + (12 : ℝ) / 100) ^ ((1 : ℝ) / 12)) ^ 2 +
        (1 + (12 : ℝ) / 100) ^ ((1 : ℝ) / 12) + 1 ≤
        (1.01 : ℝ) ^ 11 + (1.01 : ℝ) ^ 10 + (1.01 : ℝ) ^ 9 + (1.01 : ℝ) ^ 8 +
        (1.01 : ℝ) ^ 7 + (1.01 : ℝ) ^ 6 + (1.01 : ℝ) ^ 5 + (1.01 : ℝ) ^ 4 +
        (1.01 : ℝ) ^ 3 + (1.01 : ℝ) ^ 2 + (1.01 : ℝ) + 1 := by
      have hhix := hhi.le
      gcongr
    have hlow : (125788 : ℝ) ≤ 10000 * ((1.009 : ℝ) ^ 11 + (1.009 : ℝ) ^ 10 +
        (1.009 : ℝ) ^ 9 + (1.009 : ℝ) ^ 8 + (1.009 : ℝ) ^ 7 + (1.009 : ℝ) ^ 6 +
        (1.009 : ℝ) ^ 5 + (1.009 : ℝ) ^ 4 + (1.009 : ℝ) ^ 3 + (1.009 : ℝ) ^ 2 +
        (1.009 : ℝ) + 1) := by
      norm_num
    have hupp : 10000 * ((1.01 : ℝ) ^ 11 + (1.01 : ℝ) ^ 10 + (1.01 : ℝ) ^ 9 +
        (1.01 : ℝ) ^ 8 + (1.01 : ℝ) ^ 7 + (1.01 : ℝ) ^ 6 + (1.01 : ℝ) ^ 5 +
        (1.01 : ℝ) ^ 4 + (1.01 : ℝ) ^ 3 + (1.01 : ℝ) ^ 2 + (1.01 : ℝ) + 1) ≤
        (126826 : ℝ) := by
      norm_num
    rw [abs_le]
    constructor <;> linarith

/-- Witness for C2 at the annual rate of the literal scenario. -/
theorem C2_geometric_rate_witness :
    (1 + monthly_rate 12) ^ (12 : ℕ) = 1 + 12 / 100 ∧
    monthly_rate 12 = (1 + (12 : ℝ) / 100) ^ ((1 : ℝ) / 12) - 1 ∧
    monthly_rate 12 ≠ 12 / 100 / 12 ∧
    ∃ out, simulate_portfolio 10000 1 0 [⟨"Nifty 50", 100, 12⟩] = .ok out ∧
      out.total_invested = 120000 ∧
      |out.monthly_totals.getLastD 0 - 127058| ≤ 127058 / 100 :=
  C2_geometric_rate 12 (by norm_num)

lemma sum_first_contributions (b s : ℝ) (funds : List Fund) :
    ((funds.map Fund.toLine).map
      (fun l => catContribution b s l.allocation_pct 1)).sum =
      b / 100 * ((funds.map Fund.allocation_pct).sum : ℕ) := by
  induction funds with
  | nil => simp
  | cons f t ih =>
      simp only [List.map_cons, List.sum_cons, ih]
      unfold catContribution Fund.toLine
      norm_num
      ring

/-- C9: the projection tab of `app.py` invokes `simulate_portfolio` only
when the allocation percentages sum to exactly 100 and the base SIP is
strictly positive; whenever it does run, the resulting `total_invested` is
strictly positive (in particular nonzero), so the divisions computing
`profit_pct` and `multiplier` never divide by zero. -/
theorem C9_guard_divisor_pos (base_sip tenure step_up : ℕ) (funds : List Fund)
    (out : SimulationOutput)
    (h : tab2Run base_sip tenure step_up funds = some out) :
    0 < out.total_invested ∧ out.total_invested ≠ 0 := by
  unfold tab2Run at h
  by_cases hg : total_alloc funds = 100 ∧ 0 < base_sip
  swap
  · rw [if_neg hg] at h
    cases h
  rw [if_pos hg] at h
  unfold simulate_portfolio at h
  by_cases hT : tenure < 1
  · rw [if_pos hT] at h
    simp [Except.toOption] at h
  rw [if_neg hT] at h
  by_cases hbad : ∃ l ∈ funds.map Fund.toLine, l.return_pct ≤ -100
  · rw [if_pos hbad] at h
    simp [Except.toOption] at h
  rw [if_neg hbad] at h
  simp only [Except.toOption, Option.some.injEq] at h
  subst h
  have hM : 0 < tenure * 12 := by omega
  set L := funds.map Fund.toLine with hL
  have hpos : 0 < totalInvested (base_sip : ℝ) (step_up : ℝ) L (tenure * 12) := by
    have hcast : (0 : ℝ) < (base_sip : ℝ) := by
      exact_mod_cast hg.2
    have hterm : ∀ l ∈ L,
        catContribution (base_sip : ℝ) (step_up : ℝ) l.allocation_pct 1 ≤
          ((List.range (tenure * 12)).map (fun i =>
            catContribution (base_sip : ℝ) (step_up : ℝ) l.allocation_pct (i + 1))).sum := by
      intro l hl
      have hnn : ∀ x ∈ (List.range (tenure * 12)).map (fun i =>
          catContribution (base_sip : ℝ) (step_up : ℝ) l.allocation_pct (i + 1)),
          0 ≤ x := by
        intro x hx
        obtain ⟨j, -, rfl⟩ := List.mem_map.mp hx
        refine catContribution_nonneg _ _ _ _ (by positivity) (by positivity) ?_
        obtain ⟨f, -, rfl⟩ := List.mem_map.mp hl
        show (0 : ℝ) ≤ (f.allocation_pct : ℝ)
        exact Nat.cast_nonneg _
      refine List.single_le_sum hnn _ ?_
      have h0 : (0 : ℕ) ∈ List.range (tenure * 12) := List.mem_range.mpr hM
      exact List.mem_map_of_mem _ h0
    have hsum : ((L.map
        (fun l => catContribution (base_sip : ℝ) (step_up : ℝ) l.allocation_pct 1)).sum : ℝ) ≤
        totalInvested (base_sip : ℝ) (step_up : ℝ) L (tenure * 12) := by
      unfold totalInvested
      exact List.sum_le_sum hterm
    have hfirst := sum_first_contributions (base_sip : ℝ) (step_up : ℝ) funds
    rw [← hL] at hfirst
    have halloc : ((funds.map Fund.allocation_pct).sum : ℕ) = (100 : ℕ) := hg.1
    rw [halloc] at hfirst
    have : (base_sip : ℝ) / 100 * ((100 : ℕ) : ℝ) = (base_sip : ℝ) := by
      push_cast
      ring
    rw [this] at hfirst
    calc (0 : ℝ) < (base_sip : ℝ) := hcast
    _ = _ := hfirst.symm
    _ ≤ _ := hsum
  constructor
  · exact hpos
  · exact ne_of_gt hpos

/-- Witness for C9: the guard passes on a concrete 100%-allocation, positive
SIP configuration, and the resulting total invested is positive. -/
theorem C9_guard_divisor_pos_witness :
    0 < (simOutput (20000 : ℕ) 15 (10 : ℕ)
      (([⟨"Nifty 50", 100, 12⟩] : List Fund).map Fund.toLine)).total_invested ∧
    (simOutput (20000 : ℕ) 15 (10 : ℕ)
      (([⟨"Nifty 50", 100, 12⟩] : List Fund).map Fund.toLine)).total_invested ≠ 0 :=
  C9_guard_divisor_pos 20000 15 10 [⟨"Nifty 50", 100, 12⟩] _ (by
    unfold tab2Run
    rw [if_pos (by constructor <;> norm_num [total_alloc])]
    rw [sim_ok_of_valid (20000 : ℕ) 15 (10 : ℕ)
      (([⟨"Nifty 50", 100, 12⟩] : List Fund).map Fund.toLine) (by norm_num)
      (by intro l hl; simp [Fund.toLine] at hl; subst hl; norm_num)]
    rfl)

end ArthaFlow
